import Mathlib

/-
Shallow embedding of the flashcard-generation core of the repository
(app/features/dynamo/core.py and app/features/dynamo/tools.py).

External collaborators (document loaders, the text splitter, the remote
language model, JSON parsing) are modelled as oracle parameters: each
embedded function takes the outcome of its external calls as an argument.
Python exceptions are modelled as values of type `Err` carried in
`Except`; `str(e)` of an exception is modelled as its stored message
(the exception classes live in app/api/error_utilities.py, outside the
embedded sources, so only the message text given at the raise site is
modelled).  Where a function's number of model invocations matters, the
embedding returns it as an explicit counter alongside the result.
-/

namespace Dynamo

/-- ASCII case folding of a string, modelling Python `str.lower()` on the
filenames handled by `get_loader` (tools.py line 34). -/
def lowerStr (s : String) : String := ⟨s.data.map Char.toLower⟩

/-- Python `str.endswith(suf)`: the last `suf.length` characters equal `suf`. -/
def strEndsWith (s suf : String) : Bool :=
  s.data.drop (s.data.length - suf.data.length) == suf.data

/-- Helper for substring search: does `pat` occur at the head of `l`? -/
def leadMatch : List Char → List Char → Bool
  | [], _ => true
  | _ :: _, [] => false
  | p :: ps, c :: cs => p == c && leadMatch ps cs

/-- Python `pat in s` on strings: `pat` occurs contiguously in `l`. -/
def hasSub (pat : List Char) : List Char → Bool
  | [] => pat.isEmpty
  | c :: cs => leadMatch pat (c :: cs) || hasSub pat cs

/-- The loader classes `get_loader` can return (tools.py lines 15-21). -/
inductive LoaderClass where
  | pdfLoader
  | docxLoader
  | pptxLoader
  | csvLoader
  | xlsxLoader
  | youtubeTranscriptLoader
deriving Repr, DecidableEq

/-- The exceptions raised and caught by the embedded code.  `libraryError`
stands for any exception coming out of an external library call. -/
inductive Err where
  | videoTranscriptError (message url : String)
  | loaderError (message : String)
  | httpException (status : Nat) (detail : String)
  | valueError (message : String)
  | typeError (message : String)
  | libraryError (message : String)
deriving Repr, DecidableEq

/-- The message text of an exception, modelling Python `str(e)` as used in
the f-strings of core.py. -/
def Err.message : Err → String
  | videoTranscriptError m _ => m
  | loaderError m => m
  | httpException _ d => d
  | valueError m => m
  | typeError m => m
  | libraryError m => m

/-- tools.py lines 33-48, `get_loader`: dispatch on the lower-cased
filename, in source order, falling back to a ValueError that embeds the
original (not lower-cased) filename. -/
def get_loader (filename : String) : Except Err LoaderClass :=
  let fn := lowerStr filename
  if strEndsWith fn ".pdf" then .ok .pdfLoader
  else if strEndsWith fn ".docx" then .ok .docxLoader
  else if strEndsWith fn ".pptx" then .ok .pptxLoader
  else if strEndsWith fn ".csv" then .ok .csvLoader
  else if strEndsWith fn ".xlsx" then .ok .xlsxLoader
  else if hasSub "youtube.com".data fn.data then .ok .youtubeTranscriptLoader
  else .error (.valueError ("Unsupported file type: " ++ filename))

/-- A parsed JSON value as produced by the JsonOutputParser: a string, an
array, or an object (a Python dict with string keys). -/
inductive JVal where
  | s (v : String)
  | arr (items : List JVal)
  | obj (fields : List (String × JVal))
deriving Repr

/-- Python `len` on a parsed JSON value: characters of a string, elements
of a list, keys of a dict. -/
def JVal.pyLen : JVal → Nat
  | s v => v.data.length
  | arr items => items.length
  | obj fields => fields.length

/-- Python `v[:n]`: slices strings and lists; a dict raises TypeError. -/
def JVal.pySlice : JVal → Nat → Except Err JVal
  | s v, n => .ok (.s ⟨v.data.take n⟩)
  | arr items, n => .ok (.arr (items.take n))
  | obj _, _ => .error (.typeError "unhashable type: slice")

/-- Python `for x in v`: iterating a list yields its elements, a dict its
keys, a string its characters (as one-character strings). -/
def JVal.iterate : JVal → List JVal
  | s v => v.data.map (fun c => JVal.s ⟨[c]⟩)
  | arr items => items
  | obj fields => fields.map (fun f => JVal.s f.1)

/-- Python `key in v` for a string key: key membership on a dict,
substring test on a string, element equality on a list. -/
def pyInJ (key : String) : JVal → Bool
  | .obj fields => fields.any (fun f => f.1 == key)
  | .s v => hasSub key.data v.data
  | .arr items =>
    items.any (fun it =>
      match it with
      | .s v => v == key
      | _ => false)

/-- Python `v[key]` for a string key: dict lookup (KeyError when absent);
indexing a string or list with a string raises TypeError. -/
def JVal.getItem (key : String) : JVal → Except Err JVal
  | .obj fields =>
    match fields.find? (fun f => f.1 == key) with
    | some f => .ok f.2
    | none => .error (.libraryError ("KeyError: " ++ key))
  | .s _ => .error (.typeError "string indices must be integers")
  | .arr _ => .error (.typeError "list indices must be integers")

/-- tools.py lines 161-185, `generate_flashcards`, after the model chain
invocation (whose outcome is the `invokeResult` oracle argument): inside
the try block the response is truncated with `response[:max_flashcards]`
only when `len(response) > max_flashcards`; any exception in the block
becomes HTTPException 500.  Note there is no check that the response is a
list. -/
def generate_flashcards (invokeResult : Except String JVal)
    (max_flashcards : Nat) : Except Err JVal :=
  match invokeResult with
  | .error _ => .error (.httpException 500 "Failed to generate flashcards from LLM")
  | .ok response =>
    if max_flashcards < response.pyLen then
      match response.pySlice max_flashcards with
      | .ok truncated => .ok truncated
      | .error _ => .error (.httpException 500 "Failed to generate flashcards from LLM")
    else .ok response

/-- tools.py lines 60-77, `process_chunk` after the chain invocation: a
non-list response raises ValueError, and every exception in the try block
(including a failed invocation) becomes HTTPException 500. -/
def process_chunk (invokeResult : Except String JVal) : Except Err (List JVal) :=
  match invokeResult with
  | .ok (.arr items) => .ok items
  | _ => .error (.httpException 500 "Failed to generate flashcards from PDF")

/-- Fuel-driven worker for `batches30`; the wrapper always supplies
`chunks.length` fuel, which is enough since every step consumes at least
one chunk, so the `0, _ :: _` case is unreachable. -/
def batchesGo : Nat → List String → List (List String)
  | _, [] => []
  | 0, _ :: _ => []
  | fuel + 1, c :: cs => ((c :: cs).take 30) :: batchesGo fuel ((c :: cs).drop 30)

/-- tools.py lines 90-101: the slices `split_docs[i:i + chunk_limit]` for
`i in range(0, total_chunks, chunk_limit)` with `chunk_limit = 30`. -/
def batches30 (chunks : List String) : List (List String) :=
  batchesGo chunks.length chunks

/-- tools.py lines 101-106, the batch loop of
`generate_flashcards_from_files`: each batch goes through `process_chunk`
(the model outcome per batch is the `oracle` argument), results are
accumulated, the loop breaks once the accumulated count reaches
`max_flashcards`, and any exception becomes HTTPException 500.  The
second component of the result counts processed batches, i.e. model
invocations. -/
def gffLoop (oracle : List String → Except String JVal) (max_flashcards : Nat) :
    List (List String) → List JVal → Nat → Except Err (List JVal × Nat)
  | [], flashcards, calls => .ok (flashcards, calls)
  | b :: rest, flashcards, calls =>
    match process_chunk (oracle b) with
    | .error _ => .error (.httpException 500 "Failed to generate flashcards from files")
    | .ok result =>
      let flashcards2 := flashcards ++ result
      if max_flashcards ≤ flashcards2.length then .ok (flashcards2, calls + 1)
      else gffLoop oracle max_flashcards rest flashcards2 (calls + 1)

/-- tools.py lines 79-108, `generate_flashcards_from_files`: loading
failure (the `loadResult` oracle) becomes LoaderError; the splitter is the
`split` oracle; the batch loop runs over `batches30`; the final return is
`flashcards[:max_flashcards]` paired with the number of model calls. -/
def generate_flashcards_from_files (loadResult : Except String (List String))
    (split : List String → List String)
    (oracle : List String → Except String JVal)
    (max_flashcards : Nat) : Except Err (List JVal × Nat) :=
  match loadResult with
  | .error _ => .error (.loaderError "Failed to load files")
  | .ok documents =>
    let split_docs := split documents
    match gffLoop oracle max_flashcards (batches30 split_docs) [] 0 with
    | .error e => .error e
    | .ok (flashcards, calls) => .ok (flashcards.take max_flashcards, calls)

/-- A document produced by the YouTube loader: its page content and the
`length` and `title` entries of its metadata (`metadata.get` returns
`none` when the key is absent). -/
structure VideoDoc where
  page_content : String
  length : Option Nat
  title : Option String
deriving Repr, DecidableEq

/-- Python truthiness of `metadata.get("length")`: `None` and `0` are
falsy. -/
def pyTruthyNat : Option Nat → Bool
  | some n => n != 0
  | none => false

/-- Python truthiness of an optional string: `None` and `""` are falsy. -/
def pyTruthyStr : Option String → Bool
  | some t => t != ""
  | none => false

/-- tools.py lines 117-133, the second try block of
`summarize_transcript`: load documents (the `loadResult` oracle), raise
VideoTranscriptError on an empty document list or on falsy `length` or
`title` metadata.  On success it returns the documents together with the
validated length and title. -/
def loadBlock (youtube_url : String)
    (loadResult : Except String (List VideoDoc)) :
    Except Err (List VideoDoc × Nat × String) :=
  match loadResult with
  | .error m => .error (.libraryError m)
  | .ok docs =>
    match docs with
    | [] => .error (.videoTranscriptError "No documents loaded from video" youtube_url)
    | d :: _ =>
      if !pyTruthyNat d.length || !pyTruthyStr d.title then
        .error (.videoTranscriptError "Missing metadata in video" youtube_url)
      else .ok (docs, d.length.getD 0, d.title.getD "")

/-- Python `" ".join(pieces)`. -/
def joinSpace : List String → String
  | [] => ""
  | [x] => x
  | x :: y :: rest => x ++ " " ++ joinSpace (y :: rest)

/-- tools.py lines 110-159, `summarize_transcript`.  Oracles:
`fromUrlResult` is the outcome of `YoutubeLoader.from_youtube_url`,
`loadResult` that of `loader.load()`, `split` is the text splitter, and
`modelResp` is the summarization chain.  The first try block turns any
failure into VideoTranscriptError "No video found"; the second is
`loadBlock`, whose every failure the enclosing handler turns into
VideoTranscriptError "No video transcripts available"; then the video
length is checked against `max_video_length`; finally the chain is
invoked on the space-joined split contents.  The second component counts
model invocations. -/
def summarize_transcript (youtube_url : String)
    (fromUrlResult : Except String Unit)
    (loadResult : Except String (List VideoDoc))
    (split : List VideoDoc → List VideoDoc)
    (modelResp : String → String)
    (max_video_length : Nat) : Except Err String × Nat :=
  match fromUrlResult with
  | .error _ => (.error (.videoTranscriptError "No video found" youtube_url), 0)
  | .ok _ =>
    match loadBlock youtube_url loadResult with
    | .error _ =>
      (.error (.videoTranscriptError "No video transcripts available" youtube_url), 0)
    | .ok (docs, length, _title) =>
      if max_video_length < length then
        (.error (.videoTranscriptError
          ("Video is " ++ toString length ++
           " seconds long, please provide a video less than " ++
           toString max_video_length ++ " seconds long") youtube_url), 0)
      else
        (.ok (modelResp (joinSpace ((split docs).map (fun d => d.page_content)))), 1)

/-- An uploaded file as seen by `executor` and `get_loader`: only its
filename drives the embedded control flow. -/
structure UpFile where
  filename : String
deriving Repr, DecidableEq

/-- The external outcomes attached to one uploaded file: its loader's
`load()` result, the splitter, and the per-batch model outcome used by
`generate_flashcards_from_files`. -/
structure FileEnv where
  loadResult : Except String (List String)
  split : List String → List String
  oracle : List String → Except String JVal

/-- core.py lines 15-22, the sanitization loop of the URL branch: keep a
record only when both `'concept' in flashcard` and
`'definition' in flashcard` hold, rebuilding it as a two-key dict;
otherwise skip it (the warning log is a side effect with no result).  An
exception raised by the subscript operations propagates. -/
def sanitizeCards : List JVal → Except Err (List JVal)
  | [] => .ok []
  | flashcard :: rest =>
    if pyInJ "concept" flashcard && pyInJ "definition" flashcard then
      match flashcard.getItem "concept" with
      | .error e => .error e
      | .ok c =>
        match flashcard.getItem "definition" with
        | .error e => .error e
        | .ok d =>
          match sanitizeCards rest with
          | .error e => .error e
          | .ok l => .ok (JVal.obj [("concept", c), ("definition", d)] :: l)
    else sanitizeCards rest

/-- core.py lines 11-28, the URL branch of `executor`: summarize (the
`summarizeResult` oracle), generate flashcards from the summary (model
outcome given by `genOracle`), sanitize.  A VideoTranscriptError raised
in the block becomes ValueError "Error in processing YouTube URL: ...";
any other exception becomes ValueError "Error in executor: ...". -/
def urlBranch (summarizeResult : Except Err String)
    (genOracle : String → Except String JVal)
    (max_flashcards : Nat) : Except Err (List JVal) :=
  match summarizeResult with
  | .error e =>
    match e with
    | .videoTranscriptError _ _ =>
      .error (.valueError ("Error in processing YouTube URL: " ++ e.message))
    | _ => .error (.valueError ("Error in executor: " ++ e.message))
  | .ok summary =>
    match generate_flashcards (genOracle summary) max_flashcards with
    | .error e => .error (.valueError ("Error in executor: " ++ e.message))
    | .ok flashcards =>
      match sanitizeCards flashcards.iterate with
      | .error e => .error (.valueError ("Error in executor: " ++ e.message))
      | .ok sanitized => .ok sanitized

/-- core.py lines 30-41, the per-file loop of `executor`: resolve the
loader (its ValueError is caught by the generic handler), run
`generate_flashcards_from_files`, extend the accumulator with the
returned cards without any sanitization.  A LoaderError becomes ValueError
"Error in processing <filename>: ..."; any other exception becomes
ValueError "Error in executor: ...", and either aborts the whole call. -/
def filesLoop (max_flashcards : Nat) :
    List (UpFile × FileEnv) → List JVal → Except Err (List JVal)
  | [], acc => .ok acc
  | (file, env) :: rest, acc =>
    match get_loader file.filename with
    | .error e => .error (.valueError ("Error in executor: " ++ e.message))
    | .ok _ =>
      match generate_flashcards_from_files env.loadResult env.split env.oracle
          max_flashcards with
      | .error e =>
        match e with
        | .loaderError m =>
          .error (.valueError ("Error in processing " ++ file.filename ++ ": " ++ m))
        | _ => .error (.valueError ("Error in executor: " ++ e.message))
      | .ok (flashcards, _) => filesLoop max_flashcards rest (acc ++ flashcards)

/-- core.py lines 8-43, `executor`: run the URL branch when `youtube_url`
is truthy (a ValueError raised there aborts the whole call), then the
file loop (iterating an empty or absent file list does nothing, so the
`if files:` guard is the loop itself). -/
def executor (youtube_url : Option String)
    (summarizeResult : Except Err String)
    (genOracle : String → Except String JVal)
    (files : List (UpFile × FileEnv))
    (max_flashcards : Nat) : Except Err (List JVal) :=
  match (if pyTruthyStr youtube_url then
          urlBranch summarizeResult genOracle max_flashcards
         else .ok []) with
  | .error e => .error e
  | .ok sanitized_flashcards => filesLoop max_flashcards files sanitized_flashcards

/-- A well-formed concrete flashcard record, for concrete runs. -/
def goodCard : JVal := .obj [("concept", .s "c1"), ("definition", .s "d1")]

/-- A concrete flashcard record missing the `definition` key. -/
def badCard : JVal := .obj [("concept", .s "x")]

/-- A file environment whose model call yields one well-formed card. -/
def demoEnv : FileEnv :=
  { loadResult := .ok ["doc"], split := fun _ => ["chunk"],
    oracle := fun _ => .ok (.arr [goodCard]) }

/-- A file environment whose model call yields one malformed card. -/
def badCardEnv : FileEnv :=
  { loadResult := .ok ["doc"], split := fun _ => ["chunk"],
    oracle := fun _ => .ok (.arr [badCard]) }

/-- Ten distinct well-formed flashcard records. -/
def tenCards : List JVal :=
  (List.range 10).map (fun i =>
    JVal.obj [("concept", JVal.s (toString i)), ("definition", JVal.s (toString i))])

/-- A file environment whose model call yields exactly ten cards. -/
def bigEnv : FileEnv :=
  { loadResult := .ok ["doc"], split := fun _ => ["chunk"],
    oracle := fun _ => .ok (.arr tenCards) }

/-- A concrete JSON object with eleven keys. -/
def manyKeys : List (String × JVal) :=
  (List.range 11).map (fun i => (toString i, JVal.s ""))

/-- C4: loader dispatch only depends on the lower-cased filename
(case-insensitive), checks the extension rules in source order
(.pdf, .docx, .pptx, .csv, .xlsx, then the substring youtube.com), and on
no match fails with an error whose message names the offending
filename. -/
theorem get_loader_dispatch (fn : String) :
    (∀ (fn2 : String) (l : LoaderClass), lowerStr fn = lowerStr fn2 →
      (get_loader fn = .ok l ↔ get_loader fn2 = .ok l))
  ∧ (strEndsWith (lowerStr fn) ".pdf" = true → get_loader fn = .ok .pdfLoader)
  ∧ (strEndsWith (lowerStr fn) ".pdf" = false →
     strEndsWith (lowerStr fn) ".docx" = true → get_loader fn = .ok .docxLoader)
  ∧ (strEndsWith (lowerStr fn) ".pdf" = false →
     strEndsWith (lowerStr fn) ".docx" = false →
     strEndsWith (lowerStr fn) ".pptx" = true → get_loader fn = .ok .pptxLoader)
  ∧ (strEndsWith (lowerStr fn) ".pdf" = false →
     strEndsWith (lowerStr fn) ".docx" = false →
     strEndsWith (lowerStr fn) ".pptx" = false →
     strEndsWith (lowerStr fn) ".csv" = true → get_loader fn = .ok .csvLoader)
  ∧ (strEndsWith (lowerStr fn) ".pdf" = false →
     strEndsWith (lowerStr fn) ".docx" = false →
     strEndsWith (lowerStr fn) ".pptx" = false →
     strEndsWith (lowerStr fn) ".csv" = false →
     strEndsWith (lowerStr fn) ".xlsx" = true → get_loader fn = .ok .xlsxLoader)
  ∧ (strEndsWith (lowerStr fn) ".pdf" = false →
     strEndsWith (lowerStr fn) ".docx" = false →
     strEndsWith (lowerStr fn) ".pptx" = false →
     strEndsWith (lowerStr fn) ".csv" = false →
     strEndsWith (lowerStr fn) ".xlsx" = false →
     hasSub "youtube.com".data (lowerStr fn).data = true →
     get_loader fn = .ok .youtubeTranscriptLoader)
  ∧ (strEndsWith (lowerStr fn) ".pdf" = false →
     strEndsWith (lowerStr fn) ".docx" = false →
     strEndsWith (lowerStr fn) ".pptx" = false →
     strEndsWith (lowerStr fn) ".csv" = false →
     strEndsWith (lowerStr fn) ".xlsx" = false →
     hasSub "youtube.com".data (lowerStr fn).data = false →
     get_loader fn = .error (.valueError ("Unsupported file type: " ++ fn))) := by
  refine ⟨?_, ?_, ?_, ?_, ?_, ?_, ?_, ?_⟩
  · intro fn2 l h
    unfold get_loader
    rw [h]
    dsimp only
    split_ifs <;> simp
  · intro h1; simp [get_loader, h1]
  · intro h1 h2; simp [get_loader, h1, h2]
  · intro h1 h2 h3; simp [get_loader, h1, h2, h3]
  · intro h1 h2 h3 h4; simp [get_loader, h1, h2, h3, h4]
  · intro h1 h2 h3 h4 h5; simp [get_loader, h1, h2, h3, h4, h5]
  · intro h1 h2 h3 h4 h5 h6; simp [get_loader, h1, h2, h3, h4, h5, h6]
  · intro h1 h2 h3 h4 h5 h6; simp [get_loader, h1, h2, h3, h4, h5, h6]

/-- Witness for C4 at the concrete filenames of the spec: an upper-cased
.PDF dispatches to the PDF loader, a YouTube URL to the transcript
loader, and an unsupported name fails with the filename in the message. -/
theorem get_loader_dispatch_witness :
    get_loader "lecture.PDF" = .ok .pdfLoader
  ∧ get_loader "https://youtube.com/watch?v=x" = .ok .youtubeTranscriptLoader
  ∧ get_loader "notes.txt" = .error (.valueError "Unsupported file type: notes.txt") := by
  refine ⟨(get_loader_dispatch "lecture.PDF").2.1 (by decide), ?_, ?_⟩
  · exact (get_loader_dispatch "https://youtube.com/watch?v=x").2.2.2.2.2.2.1
      (by decide) (by decide) (by decide) (by decide) (by decide) (by decide)
  · exact (get_loader_dispatch "notes.txt").2.2.2.2.2.2.2
      (by decide) (by decide) (by decide) (by decide) (by decide) (by decide)

/-- C5: when the loaded video carries valid metadata but its length
exceeds the ceiling, `summarize_transcript` fails with a
VideoTranscriptError whose message holds both the actual and the allowed
lengths, and performs zero model invocations. -/
theorem summarize_rejects_long_video (youtube_url : String)
    (loadResult : Except String (List VideoDoc))
    (split : List VideoDoc → List VideoDoc) (modelResp : String → String)
    (max_video_length : Nat) (d : VideoDoc) (ds : List VideoDoc)
    (n : Nat) (t : String) :
    loadResult = .ok (d :: ds) →
    d.length = some n → n ≠ 0 →
    d.title = some t → t ≠ "" →
    max_video_length < n →
    summarize_transcript youtube_url (.ok ()) loadResult split modelResp max_video_length
      = (.error (.videoTranscriptError
          ("Video is " ++ toString n ++
           " seconds long, please provide a video less than " ++
           toString max_video_length ++ " seconds long") youtube_url), 0) := by
  intro hload hlen hn ht htne hlt
  subst hload
  simp [summarize_transcript, loadBlock, pyTruthyNat, pyTruthyStr,
    hlen, ht, hn, htne, hlt]

/-- Witness for C5: a 3000-second video against the default 2000-second
ceiling is rejected, with both numbers in the message, before any model
call. -/
theorem summarize_rejects_long_video_witness :
    summarize_transcript "u" (.ok ()) (.ok [⟨"tx", some 3000, some "t"⟩])
      (fun d => d) (fun _ => "summary") 2000
      = (.error (.videoTranscriptError
          "Video is 3000 seconds long, please provide a video less than 2000 seconds long"
          "u"), 0) :=
  summarize_rejects_long_video "u" (.ok [⟨"tx", some 3000, some "t"⟩])
    (fun d => d) (fun _ => "summary") 2000 ⟨"tx", some 3000, some "t"⟩ [] 3000 "t"
    rfl rfl (by decide) rfl (by decide) (by decide)

/-- C9: every failure of the document-loading and metadata-validation
block of `summarize_transcript` — including the specific
"No documents loaded from video" and "Missing metadata in video"
VideoTranscriptErrors that block raises — is re-raised to the caller as
VideoTranscriptError "No video transcripts available", so the caller
never observes the more specific messages. -/
theorem summarize_masks_inner_errors (youtube_url : String)
    (loadResult : Except String (List VideoDoc))
    (split : List VideoDoc → List VideoDoc) (modelResp : String → String)
    (max_video_length : Nat) (e : Err) :
    (loadBlock youtube_url loadResult = .error e →
      summarize_transcript youtube_url (.ok ()) loadResult split modelResp max_video_length
        = (.error (.videoTranscriptError "No video transcripts available" youtube_url), 0))
  ∧ loadBlock youtube_url (.ok []) =
      .error (.videoTranscriptError "No documents loaded from video" youtube_url)
  ∧ (∀ (pc : String) (t : Option String) (rest : List VideoDoc),
      loadBlock youtube_url (.ok (⟨pc, none, t⟩ :: rest)) =
        .error (.videoTranscriptError "Missing metadata in video" youtube_url)) := by
  refine ⟨?_, rfl, ?_⟩
  · intro h
    simp [summarize_transcript, h]
  · intro pc t rest
    simp [loadBlock, pyTruthyNat]

/-- Witness for C9: an empty document list surfaces to the caller as the
generic "No video transcripts available" error, not as the inner
"No documents loaded from video" one. -/
theorem summarize_masks_inner_errors_witness :
    summarize_transcript "u" (.ok ()) (.ok []) (fun d => d) (fun _ => "") 2000
      = (.error (.videoTranscriptError "No video transcripts available" "u"), 0) :=
  (summarize_masks_inner_errors "u" (.ok []) (fun d => d) (fun _ => "") 2000
    (.videoTranscriptError "No documents loaded from video" "u")).1 rfl

/-- C10: when loading succeeds but splitting yields zero chunks,
`generate_flashcards_from_files` returns an empty list, makes zero model
calls, and raises no error. -/
theorem gff_no_chunks_empty (documents : List String)
    (split : List String → List String) (oracle : List String → Except String JVal)
    (max_flashcards : Nat) :
    split documents = [] →
    generate_flashcards_from_files (.ok documents) split oracle max_flashcards
      = .ok ([], 0) := by
  intro h
  simp [generate_flashcards_from_files, h, batches30, batchesGo, gffLoop]

/-- Witness for C10 on a concrete document whose splitter output is
empty. -/
theorem gff_no_chunks_empty_witness :
    generate_flashcards_from_files (.ok ["doc"]) (fun _ => [])
      (fun _ => .ok (.arr [])) 10 = .ok ([], 0) :=
  gff_no_chunks_empty ["doc"] (fun _ => []) (fun _ => .ok (.arr [])) 10 rfl

/-- Any sufficient amount of fuel gives `batchesGo` the same value as the
exact fuel `l.length` used by `batches30`. -/
theorem batchesGo_irrel : ∀ (fuel : Nat) (l : List String), l.length ≤ fuel →
    batchesGo fuel l = batchesGo l.length l := by
  intro fuel
  induction fuel using Nat.strong_induction_on with
  | _ fuel ih =>
    intro l hl
    cases l with
    | nil => cases fuel <;> rfl
    | cons c cs =>
      cases fuel with
      | zero => simp at hl
      | succ k =>
        have hk : cs.length ≤ k := by simpa using hl
        have h1 : ((c :: cs).drop 30).length ≤ k := by
          simp [List.length_drop]; omega
        have h2 : ((c :: cs).drop 30).length ≤ cs.length := by
          simp [List.length_drop]
        calc batchesGo (k + 1) (c :: cs)
            = (c :: cs).take 30 :: batchesGo k ((c :: cs).drop 30) := rfl
          _ = (c :: cs).take 30 ::
                batchesGo ((c :: cs).drop 30).length ((c :: cs).drop 30) := by
              rw [ih k (Nat.lt_succ_self k) _ h1]
          _ = (c :: cs).take 30 :: batchesGo cs.length ((c :: cs).drop 30) := by
              rw [ih cs.length (Nat.lt_succ_of_le hk) _ h2]
          _ = batchesGo (c :: cs).length (c :: cs) := rfl

/-- Unfolding equation of `batches30` on a nonempty chunk list: the first
batch is the first 30 chunks, the rest is batched the same way. -/
theorem batches30_cons (c : String) (cs : List String) :
    batches30 (c :: cs) = (c :: cs).take 30 :: batches30 ((c :: cs).drop 30) := by
  show batchesGo (cs.length + 1) (c :: cs) = _
  have h : batchesGo (cs.length + 1) (c :: cs)
      = (c :: cs).take 30 :: batchesGo cs.length ((c :: cs).drop 30) := rfl
  rw [h, batchesGo_irrel cs.length ((c :: cs).drop 30)
    (by simp [List.length_drop])]
  rfl

/-- C6: chunks are partitioned into sequential batches of 30, and if the
first batch already yields at least `max_flashcards` cards the loop stops
after exactly one model call, returning the accumulated list truncated to
exactly `max_flashcards` entries. -/
theorem gff_stops_early (documents : List String)
    (split : List String → List String) (oracle : List String → Except String JVal)
    (max_flashcards : Nat) (c : String) (cs : List String) (items : List JVal) :
    (∀ l : List String, l ≠ [] → batches30 l = l.take 30 :: batches30 (l.drop 30))
  ∧ (split documents = c :: cs →
     oracle ((c :: cs).take 30) = .ok (.arr items) →
     max_flashcards ≤ items.length →
     generate_flashcards_from_files (.ok documents) split oracle max_flashcards
       = .ok (items.take max_flashcards, 1)
       ∧ (items.take max_flashcards).length = max_flashcards) := by
  constructor
  · intro l hl
    cases l with
    | nil => exact absurd rfl hl
    | cons x xs => exact batches30_cons x xs
  · intro hsplit horacle hmax
    constructor
    · simp only [generate_flashcards_from_files, hsplit, batches30_cons]
      simp only [gffLoop, process_chunk, horacle]
      rw [if_pos (by simpa using hmax)]
      simp [List.take_take, Nat.min_def, hmax]
    · simp [List.length_take, Nat.min_eq_left hmax]

/-- Witness for C6: with `max_flashcards = 5` and a first batch yielding
ten cards, exactly five cards come back after a single model call. -/
theorem gff_stops_early_witness :
    generate_flashcards_from_files (.ok ["doc"]) (fun _ => ["c1", "c2"])
      (fun _ => .ok (.arr tenCards)) 5 = .ok (tenCards.take 5, 1)
    ∧ (tenCards.take 5).length = 5 :=
  (gff_stops_early ["doc"] (fun _ => ["c1", "c2"]) (fun _ => .ok (.arr tenCards))
    5 "c1" ["c2"] tenCards).2 rfl rfl (by decide)

/-- C8: with no URL (absent or empty) and no files, `executor` returns an
empty list and no error. -/
theorem executor_no_inputs (youtube_url : Option String)
    (summarizeResult : Except Err String) (genOracle : String → Except String JVal)
    (max_flashcards : Nat) :
    youtube_url = none ∨ youtube_url = some "" →
    executor youtube_url summarizeResult genOracle [] max_flashcards = .ok [] := by
  rintro (rfl | rfl) <;> rfl

/-- Witness for C8 at `youtube_url = none` and an empty file list. -/
theorem executor_no_inputs_witness :
    executor none (.ok "") (fun _ => .ok (.arr [])) [] 10 = .ok [] :=
  executor_no_inputs none (.ok "") (fun _ => .ok (.arr [])) 10 (Or.inl rfl)

/-- The sanitization loop never lengthens its input. -/
theorem sanitizeCards_length (items : List JVal) :
    ∀ out, sanitizeCards items = .ok out → out.length ≤ items.length := by
  induction items with
  | nil =>
    intro out h
    simp only [sanitizeCards, Except.ok.injEq] at h
    subst h; simp
  | cons fc rest ih =>
    intro out h
    by_cases hk : (pyInJ "concept" fc && pyInJ "definition" fc) = true
    · simp only [sanitizeCards, if_pos hk] at h
      cases hc : fc.getItem "concept" with
      | error e => simp only [hc] at h; exact Except.noConfusion h
      | ok c =>
        simp only [hc] at h
        cases hd : fc.getItem "definition" with
        | error e => simp only [hd] at h; exact Except.noConfusion h
        | ok d =>
          simp only [hd] at h
          cases hr : sanitizeCards rest with
          | error e => simp only [hr] at h; exact Except.noConfusion h
          | ok l =>
            simp only [hr, Except.ok.injEq] at h
            subst h
            simpa using Nat.succ_le_succ (ih l hr)
    · simp only [sanitizeCards, if_neg hk] at h
      exact Nat.le_succ_of_le (ih out h)

/-- Every record kept by the sanitization loop is a rebuilt two-key
concept/definition object. -/
theorem sanitizeCards_shape (items : List JVal) :
    ∀ out, sanitizeCards items = .ok out →
    ∀ v ∈ out, ∃ c d, v = JVal.obj [("concept", c), ("definition", d)] := by
  induction items with
  | nil =>
    intro out h
    simp only [sanitizeCards, Except.ok.injEq] at h
    subst h; simp
  | cons fc rest ih =>
    intro out h
    by_cases hk : (pyInJ "concept" fc && pyInJ "definition" fc) = true
    · simp only [sanitizeCards, if_pos hk] at h
      cases hc : fc.getItem "concept" with
      | error e => simp only [hc] at h; exact Except.noConfusion h
      | ok c =>
        simp only [hc] at h
        cases hd : fc.getItem "definition" with
        | error e => simp only [hd] at h; exact Except.noConfusion h
        | ok d =>
          simp only [hd] at h
          cases hr : sanitizeCards rest with
          | error e => simp only [hr] at h; exact Except.noConfusion h
          | ok l =>
            simp only [hr, Except.ok.injEq] at h
            subst h
            intro v hv
            cases hv with
            | head => exact ⟨c, d, rfl⟩
            | tail _ hv => exact ih l hr v hv
    · simp only [sanitizeCards, if_neg hk] at h
      exact ih out h

/-- Iterating a parsed JSON value yields exactly `pyLen` items. -/
theorem iterate_length (v : JVal) : v.iterate.length = v.pyLen := by
  cases v <;> simp [JVal.iterate, JVal.pyLen]

/-- Whatever `generate_flashcards` returns has Python length at most
`max_flashcards`: the response is truncated to the cap, never padded. -/
theorem generate_flashcards_pyLen (invokeResult : Except String JVal)
    (max_flashcards : Nat) (response : JVal) :
    generate_flashcards invokeResult max_flashcards = .ok response →
    response.pyLen ≤ max_flashcards := by
  intro h
  cases invokeResult with
  | error m => simp [generate_flashcards] at h
  | ok r =>
    simp only [generate_flashcards] at h
    by_cases hlen : max_flashcards < r.pyLen
    · rw [if_pos hlen] at h
      cases r with
      | s v =>
        simp only [JVal.pySlice, Except.ok.injEq] at h
        subst h
        simp [JVal.pyLen]
      | arr items =>
        simp only [JVal.pySlice, Except.ok.injEq] at h
        subst h
        simp [JVal.pyLen]
      | obj fields => simp [JVal.pySlice] at h
    · rw [if_neg hlen] at h
      cases h
      omega

/-- A successful URL branch yields at most `max_flashcards` sanitized
records. -/
theorem urlBranch_length (summarizeResult : Except Err String)
    (genOracle : String → Except String JVal) (max_flashcards : Nat)
    (out : List JVal) :
    urlBranch summarizeResult genOracle max_flashcards = .ok out →
    out.length ≤ max_flashcards := by
  intro h
  cases summarizeResult with
  | error e => cases e <;> simp [urlBranch] at h
  | ok summary =>
    simp only [urlBranch] at h
    cases hg : generate_flashcards (genOracle summary) max_flashcards with
    | error e => simp only [hg] at h; cases e <;> simp at h
    | ok resp =>
      simp only [hg] at h
      cases hs : sanitizeCards resp.iterate with
      | error e => simp only [hs] at h; cases e <;> simp at h
      | ok l =>
        simp only [hs, Except.ok.injEq] at h
        subst h
        have t1 := sanitizeCards_length _ _ hs
        have t2 := iterate_length resp
        have t3 := generate_flashcards_pyLen _ _ _ hg
        omega

/-- Every record a successful URL branch returns is a rebuilt two-key
concept/definition object. -/
theorem urlBranch_shape (summarizeResult : Except Err String)
    (genOracle : String → Except String JVal) (max_flashcards : Nat)
    (out : List JVal) :
    urlBranch summarizeResult genOracle max_flashcards = .ok out →
    ∀ v ∈ out, ∃ c d, v = JVal.obj [("concept", c), ("definition", d)] := by
  intro h
  cases summarizeResult with
  | error e => cases e <;> simp [urlBranch] at h
  | ok summary =>
    simp only [urlBranch] at h
    cases hg : generate_flashcards (genOracle summary) max_flashcards with
    | error e => simp only [hg] at h; cases e <;> simp at h
    | ok resp =>
      simp only [hg] at h
      cases hs : sanitizeCards resp.iterate with
      | error e => simp only [hs] at h; cases e <;> simp at h
      | ok l =>
        simp only [hs, Except.ok.injEq] at h
        subst h
        exact sanitizeCards_shape _ _ hs

/-- A successful `generate_flashcards_from_files` call returns at most
`max_flashcards` cards. -/
theorem gff_length (loadResult : Except String (List String))
    (split : List String → List String) (oracle : List String → Except String JVal)
    (max_flashcards : Nat) (cards : List JVal) (calls : Nat) :
    generate_flashcards_from_files loadResult split oracle max_flashcards
      = .ok (cards, calls) →
    cards.length ≤ max_flashcards := by
  intro h
  cases loadResult with
  | error m => simp [generate_flashcards_from_files] at h
  | ok documents =>
    simp only [generate_flashcards_from_files] at h
    cases hl : gffLoop oracle max_flashcards (batches30 (split documents)) [] 0 with
    | error e => simp [hl] at h
    | ok p =>
      obtain ⟨fl, cl⟩ := p
      simp only [hl, Except.ok.injEq, Prod.mk.injEq] at h
      obtain ⟨h1, _⟩ := h
      subst h1
      simp [List.length_take]

/-- The file loop adds at most `max_flashcards` cards per file to its
accumulator. -/
theorem filesLoop_length (max_flashcards : Nat) :
    ∀ (files : List (UpFile × FileEnv)) (acc out : List JVal),
    filesLoop max_flashcards files acc = .ok out →
    out.length ≤ acc.length + max_flashcards * files.length := by
  intro files
  induction files with
  | nil =>
    intro acc out h
    simp only [filesLoop, Except.ok.injEq] at h
    subst h; simp
  | cons fe rest ih =>
    intro acc out h
    obtain ⟨file, env⟩ := fe
    simp only [filesLoop] at h
    cases hg : get_loader file.filename with
    | error e => simp only [hg] at h; exact Except.noConfusion h
    | ok lc =>
      simp only [hg] at h
      cases hf : generate_flashcards_from_files env.loadResult env.split env.oracle
          max_flashcards with
      | error e => simp only [hf] at h; cases e <;> simp at h
      | ok p =>
        obtain ⟨cards, calls⟩ := p
        simp only [hf] at h
        have h1 := ih (acc ++ cards) out h
        have h2 := gff_length env.loadResult env.split env.oracle max_flashcards
          cards calls hf
        simp only [List.length_append] at h1
        simp only [List.length_cons, Nat.mul_succ]
        linarith

/-- C1 counterexample: two uploaded files, a cap of 10, and a model that
yields 10 cards per file give a returned list of 20 records — more than
the requested `max_flashcards`. -/
theorem executor_total_exceeds_cap_cex :
    Except.map List.length
      (executor none (.ok "") (fun _ => .ok (.arr []))
        [(⟨"a.pdf"⟩, bigEnv), (⟨"b.pdf"⟩, bigEnv)] 10) = .ok 20
  ∧ ¬(20 ≤ 10) := ⟨rfl, by decide⟩

/-- C1 amended: each source's contribution is truncated to
`max_flashcards`, so the returned list is bounded by `max_flashcards`
times the number of sources (URL branch plus one per file); with a single
source the cap holds as originally claimed, but with several sources the
total may exceed it. -/
theorem executor_per_source_cap (youtube_url : Option String)
    (summarizeResult : Except Err String) (genOracle : String → Except String JVal)
    (files : List (UpFile × FileEnv)) (max_flashcards : Nat) (out : List JVal) :
    executor youtube_url summarizeResult genOracle files max_flashcards = .ok out →
    out.length ≤ max_flashcards *
      ((if pyTruthyStr youtube_url then 1 else 0) + files.length) := by
  intro h
  simp only [executor] at h
  by_cases hu : pyTruthyStr youtube_url = true
  · rw [if_pos hu] at h
    rw [if_pos hu]
    cases hb : urlBranch summarizeResult genOracle max_flashcards with
    | error e => simp only [hb] at h; exact Except.noConfusion h
    | ok sanitized =>
      simp only [hb] at h
      have h1 := filesLoop_length max_flashcards files sanitized out h
      have h2 := urlBranch_length summarizeResult genOracle max_flashcards sanitized hb
      rw [Nat.mul_add, Nat.mul_one]
      linarith
  · rw [if_neg hu] at h
    rw [if_neg hu]
    have h1 := filesLoop_length max_flashcards files [] out h
    simpa using h1

/-- Witness for the amended C1 at a concrete two-file run returning
twenty cards, within the per-source bound of ten times two sources. -/
theorem executor_per_source_cap_witness :
    (tenCards ++ tenCards).length ≤ 10 *
      ((if pyTruthyStr none then 1 else 0) +
        ([(⟨"a.pdf"⟩, bigEnv), (⟨"b.pdf"⟩, bigEnv)] : List (UpFile × FileEnv)).length) :=
  executor_per_source_cap none (.ok "") (fun _ => .ok (.arr []))
    [(⟨"a.pdf"⟩, bigEnv), (⟨"b.pdf"⟩, bigEnv)] 10 (tenCards ++ tenCards) rfl

/-- C2 counterexample: a file-path record missing the `definition` key is
returned unchanged by `executor` — file-derived cards are not
sanitized. -/
theorem executor_file_card_missing_key_cex :
    executor none (.ok "") (fun _ => .ok (.arr [])) [(⟨"a.pdf"⟩, badCardEnv)] 10
      = .ok [badCard]
  ∧ pyInJ "definition" badCard = false := ⟨rfl, rfl⟩

/-- C2 amended: sanitization applies to URL-derived records only — every
record in the output of a files-free `executor` call carries both the
`concept` and `definition` keys, and a raw record missing either key is
dropped by the sanitization loop rather than raising; file-derived
records bypass this check. -/
theorem executor_url_cards_sanitized (youtube_url : Option String)
    (summarizeResult : Except Err String) (genOracle : String → Except String JVal)
    (max_flashcards : Nat) (out : List JVal) :
    (executor youtube_url summarizeResult genOracle [] max_flashcards = .ok out →
      ∀ v ∈ out, ∃ c d, v = JVal.obj [("concept", c), ("definition", d)])
  ∧ (∀ (fc : JVal) (rest : List JVal),
      (pyInJ "concept" fc && pyInJ "definition" fc) = false →
      sanitizeCards (fc :: rest) = sanitizeCards rest) := by
  constructor
  · intro h
    simp only [executor] at h
    by_cases hu : pyTruthyStr youtube_url = true
    · rw [if_pos hu] at h
      cases hb : urlBranch summarizeResult genOracle max_flashcards with
      | error e => simp only [hb] at h; exact Except.noConfusion h
      | ok sanitized =>
        simp only [hb, filesLoop, Except.ok.injEq] at h
        subst h
        exact urlBranch_shape summarizeResult genOracle max_flashcards _ hb
    · rw [if_neg hu] at h
      simp only [filesLoop, Except.ok.injEq] at h
      subst h
      intro v hv
      cases hv
  · intro fc rest hfc
    simp [sanitizeCards, hfc]

/-- Witness for the amended C2: a URL-only run keeps the well-formed
record (in rebuilt two-key shape) and the sanitization loop drops a
malformed record without failing. -/
theorem executor_url_cards_sanitized_witness :
    (∃ c d, JVal.obj [("concept", JVal.s "a"), ("definition", JVal.s "b")]
      = JVal.obj [("concept", c), ("definition", d)])
  ∧ sanitizeCards [JVal.s "zz"] = sanitizeCards [] := by
  constructor
  · exact (executor_url_cards_sanitized (some "u") (.ok "s")
      (fun _ => .ok (.arr
        [JVal.obj [("concept", JVal.s "a"), ("definition", JVal.s "b")],
         JVal.obj [("concept", JVal.s "x")]])) 10
      [JVal.obj [("concept", JVal.s "a"), ("definition", JVal.s "b")]]).1 rfl
      (JVal.obj [("concept", JVal.s "a"), ("definition", JVal.s "b")]) (by simp)
  · exact (executor_url_cards_sanitized none (.ok "") (fun _ => .ok (.arr [])) 0 []).2
      (JVal.s "zz") [] rfl

/-- C3 counterexample: with a failing URL branch and one perfectly
processable file, `executor` raises and returns no file-derived cards,
although the same file alone yields a card. -/
theorem executor_url_failure_files_skipped_cex :
    executor (some "u") (.error (.videoTranscriptError "No video found" "u"))
      (fun _ => .ok (.arr [])) [(⟨"a.pdf"⟩, demoEnv)] 10
      = .error (.valueError "Error in processing YouTube URL: No video found")
  ∧ executor none (.error (.videoTranscriptError "No video found" "u"))
      (fun _ => .ok (.arr [])) [(⟨"a.pdf"⟩, demoEnv)] 10
      = .ok [goodCard] := ⟨rfl, rfl⟩

/-- C3 amended: when the URL branch fails, `executor` re-raises a
ValueError that aborts the entire call — the result is an error
independent of the supplied files, so file processing does not
proceed. -/
theorem executor_url_failure_aborts (url : String) (e : Err)
    (genOracle : String → Except String JVal)
    (files : List (UpFile × FileEnv)) (max_flashcards : Nat) :
    url ≠ "" →
    (∃ m, executor (some url) (.error e) genOracle files max_flashcards
        = .error (.valueError m))
  ∧ executor (some url) (.error e) genOracle files max_flashcards
      = executor (some url) (.error e) genOracle [] max_flashcards := by
  intro hurl
  have ht : pyTruthyStr (some url) = true := by
    simp [pyTruthyStr, bne_iff_ne, hurl]
  have hb : ∃ m, urlBranch (.error e) genOracle max_flashcards
      = .error (.valueError m) := by
    cases e <;> exact ⟨_, rfl⟩
  obtain ⟨m, hm⟩ := hb
  refine ⟨⟨m, ?_⟩, ?_⟩
  · simp [executor, ht, hm]
  · simp [executor, ht, hm]

/-- Witness for the amended C3 at a concrete failing URL and one file. -/
theorem executor_url_failure_aborts_witness :
    (∃ m, executor (some "u") (.error (.videoTranscriptError "x" "u"))
        (fun _ => .ok (.arr [])) [(⟨"a.pdf"⟩, demoEnv)] 10
        = .error (.valueError m))
  ∧ executor (some "u") (.error (.videoTranscriptError "x" "u"))
      (fun _ => .ok (.arr [])) [(⟨"a.pdf"⟩, demoEnv)] 10
      = executor (some "u") (.error (.videoTranscriptError "x" "u"))
          (fun _ => .ok (.arr [])) [] 10 :=
  executor_url_failure_aborts "u" (.videoTranscriptError "x" "u")
    (fun _ => .ok (.arr [])) [(⟨"a.pdf"⟩, demoEnv)] 10 (by decide)

/-- C7: a parsed model response that is a JSON object with at most
`max_flashcards` keys is returned by `generate_flashcards` unchanged —
not rejected with a GenerationError — while an object with more keys than
the cap only fails incidentally, because slicing a dict raises
TypeError. -/
theorem generate_flashcards_object_returned :
    generate_flashcards (.ok (.obj [("concept", .s "c"), ("definition", .s "d")])) 10
      = .ok (.obj [("concept", .s "c"), ("definition", .s "d")])
  ∧ generate_flashcards (.ok (.obj manyKeys)) 10
      = .error (.httpException 500 "Failed to generate flashcards from LLM") := ⟨rfl, rfl⟩

end Dynamo
